import Mathlib

/-!
Verification of the resilient HTTP client (circuit breaker + response
validation) and the TTL-based secret cache of the hurley-kit packages
vendored in this repository.

The Go sources are shallowly embedded: pure functions become Lean
functions, the mutable state of the breaker and of the caches is passed
explicitly, Go `time.Duration`/`time.Time` values become `Int`
(nanoseconds), Go byte slices become `List Nat`, and fallible calls
return `Except GoErr`.  Go `float64` arithmetic inside `readyToTrip` is
modelled exactly over `ℚ`.  The `gobreaker` library itself is not part
of the repository sources, so its state machine is modelled from the
specification (see the doc comments marked "Modelled from the spec").
-/

namespace Request

/-- Go error values that circulate through the `http/request` package.
Identity of sentinel errors (pointer equality of `errors.New` values in
Go) is modelled by constructor identity: `errCircuitOpen` is the
`ErrCircuitOpen` sentinel, `respValidation` is `ResponseValidationError{}`,
`breakerOpen` is the error the gobreaker library returns while the
circuit is open, `urlError inner` is a `*url.Error` wrapping `inner`
(as `http.Client.Do` produces), and `other s` is any other error whose
message is `s`. -/
inductive GoErr where
  | errCircuitOpen : GoErr
  | respValidation : GoErr
  | breakerOpen : GoErr
  | urlError (inner : GoErr) : GoErr
  | other (msg : String) : GoErr
deriving DecidableEq, Repr

/-- The `Error()` message of each modelled Go error.  The gobreaker
library returns an error whose message is "circuit breaker is open";
the repository compares against that string. -/
def GoErr.message : GoErr → String
  | .errCircuitOpen => "circuit open"
  | .respValidation => "response did not pass validation"
  | .breakerOpen => "circuit breaker is open"
  | .urlError inner => inner.message
  | .other msg => msg

/-- An HTTP response, reduced to the one field the embedded code
inspects.  `statusCode` is a Go `int`. -/
structure HTTPResponse where
  statusCode : Int
deriving DecidableEq, Repr

/-- Translated from `DefaultResponseValidator` in
`http/request/client.go`: any status code less than 500 is a success
from the perspective of a client; all other codes are failures. -/
def DefaultResponseValidator (resp : HTTPResponse) : Bool :=
  resp.statusCode < 500

/-- Translated from `IsCircuitOpenError` in `http/request/client.go`:
`nil` is not a circuit-open error; otherwise the error must be a
`*url.Error` whose `Err` field is the `ErrCircuitOpen` sentinel. -/
def IsCircuitOpenError : Option GoErr → Bool
  | none => false
  | some err =>
    match err with
    | .urlError inner => inner == .errCircuitOpen
    | _ => false

/-- Per-window request statistics of the circuit breaker, the part of
`gobreaker.Counts` that `readyToTrip` in `http/request/client.go`
reads.  The Go fields are `uint32`; the window sizes reachable here
never overflow them, so they are modelled as `Nat`. -/
structure Counts where
  requests : Nat
  totalFailures : Nat
deriving DecidableEq, Repr

/-- The value of the Go conversion `uint32(i)` for an `int` argument,
as used in `readyToTrip`: reduction modulo 2^32. -/
def goUint32 (i : Int) : Nat :=
  (i.emod 4294967296).toNat

/-- Translated from the `readyToTrip` closure in
`http/request/client.go` (`CircuitBreaker` configuration function):
never trip on zero requests; otherwise trip iff the window holds at
least `uint32(minObservations)` requests and the failure ratio
`TotalFailures/Requests` is at least `failurePercentage/100`.  The Go
`float64` quotients are modelled exactly in `ℚ`. -/
def readyToTrip (minObservations failurePercentage : Int) (counts : Counts) : Bool :=
  if counts.requests = 0 then
    false
  else
    let failureRatio : ℚ := (counts.totalFailures : ℚ) / (counts.requests : ℚ)
    let failureThreshold : ℚ := (failurePercentage : ℚ) / 100
    decide (goUint32 minObservations ≤ counts.requests ∧ failureThreshold ≤ failureRatio)

/-- The three circuit breaker states of the spec state machine. -/
inductive BreakerState where
  | Closed : BreakerState
  | Open : BreakerState
  | HalfOpen : BreakerState
deriving DecidableEq, Repr

/-- Static breaker configuration: the stats window (`Interval` of the
gobreaker settings, set from the `window` argument of `CircuitBreaker`),
the cool-down spent in the Open state before probing, and the two
`readyToTrip` parameters. -/
structure BreakerConfig where
  window : Int
  cooldown : Int
  minObservations : Int
  failurePercentage : Int
deriving DecidableEq, Repr

/-- Modelled from the spec: the mutable state of the shared circuit
breaker (the gobreaker library is not among the repository sources).
`expiry` is the end of the current stats window while Closed, and the
cool-down deadline while Open. -/
structure Breaker where
  state : BreakerState
  counts : Counts
  expiry : Int
deriving DecidableEq, Repr

/-- Modelled from the spec: lazy window/cool-down expiry, applied on
entry to every breaker operation.  While Closed, a window rollover
resets the per-window counts; while Open, an elapsed cool-down moves
the breaker to HalfOpen to probe. -/
def Breaker.currentState (b : Breaker) (now : Int) (cfg : BreakerConfig) : Breaker :=
  match b.state with
  | .Closed =>
    if b.expiry ≤ now then
      { state := .Closed, counts := ⟨0, 0⟩, expiry := now + cfg.window }
    else b
  | .Open =>
    if b.expiry ≤ now then
      { state := .HalfOpen, counts := ⟨0, 0⟩, expiry := 0 }
    else b
  | .HalfOpen => b

/-- Modelled from the spec: bookkeeping after one completed request.
While Closed, the request (and, on failure, the failure) is counted and
the breaker trips to Open exactly when a failure makes `readyToTrip`
true of the updated window counts; a transition resets the counts and
starts the cool-down.  While HalfOpen, a successful probe closes the
breaker and a failed probe reopens it.  (The request itself is counted
here rather than at call entry; with the sequential embedding the two
are equivalent.) -/
def Breaker.afterRequest (cfg : BreakerConfig) (success : Bool) (now : Int)
    (b : Breaker) : Breaker :=
  match b.state with
  | .Closed =>
    let c : Counts :=
      ⟨b.counts.requests + 1, b.counts.totalFailures + (if success then 0 else 1)⟩
    if !success && readyToTrip cfg.minObservations cfg.failurePercentage c then
      { state := .Open, counts := ⟨0, 0⟩, expiry := now + cfg.cooldown }
    else
      { b with counts := c }
  | .HalfOpen =>
    if success then
      { state := .Closed, counts := ⟨0, 0⟩, expiry := now + cfg.window }
    else
      { state := .Open, counts := ⟨0, 0⟩, expiry := now + cfg.cooldown }
  | .Open => b

/-- Modelled from the spec: a whole window of request outcomes
(`true` = success) fed to the breaker one by one, with no window
rollover in between. -/
def Breaker.runWindow (cfg : BreakerConfig) (outcomes : List Bool) (now : Int)
    (b : Breaker) : Breaker :=
  outcomes.foldl (fun acc success => acc.afterRequest cfg success now) b

/-- The outcome of one pass through `breaker.Execute`: what the wrapped
function returned (a response and/or an error), the breaker state
afterwards, and whether the wrapped function was invoked at all. -/
structure ExecOutcome where
  resp : Option HTTPResponse
  err : Option GoErr
  breaker : Breaker
  nextCalled : Bool
deriving DecidableEq, Repr

/-- Modelled from the spec: `breaker.Execute(fn)`.  While the circuit
is open (and the cool-down has not elapsed), the call fails immediately
with the gobreaker circuit-open error and `fn` is never invoked;
otherwise `fn` runs and its success (a nil error) or failure is
recorded.  `fn` is passed as the value it would return when invoked. -/
def Breaker.execute (cfg : BreakerConfig) (b : Breaker) (now : Int)
    (fn : Option HTTPResponse × Option GoErr) : ExecOutcome :=
  let b1 := b.currentState now cfg
  match b1.state with
  | .Open => ⟨none, some .breakerOpen, b1, false⟩
  | _ =>
    let (resp, err) := fn
    ⟨resp, err, b1.afterRequest cfg err.isNone now, true⟩

/-- Translated from `transport.RoundTrip` in `http/request/client.go`.
`nextResult` is what the nested transport returns for the request when
it is invoked.  The closure handed to `breaker.Execute` forwards a
transport error, and flags a response rejected by the validator with
`ResponseValidationError` while still carrying the response.  After
`Execute`: a nil error and a `ResponseValidationError` both surface the
response itself with no error; the gobreaker circuit-open error message
is rewritten to the `ErrCircuitOpen` sentinel; any other error is
propagated. -/
def RoundTrip (cfg : BreakerConfig) (validator : HTTPResponse → Bool)
    (nextResult : Option HTTPResponse × Option GoErr)
    (b : Breaker) (now : Int) : ExecOutcome :=
  let fn : Option HTTPResponse × Option GoErr :=
    match nextResult with
    | (_, some e) => (none, some e)
    | (some resp, none) =>
      if !(validator resp) then (some resp, some .respValidation) else (some resp, none)
    | (none, none) => (none, none)
  let out := b.execute cfg now fn
  match out.err with
  | none => out
  | some e =>
    match e with
    | .respValidation => { out with err := none }
    | _ =>
      if e.message = "circuit breaker is open" then
        { out with resp := none, err := some .errCircuitOpen }
      else
        { out with resp := none, err := some e }

/-- Translated from `clientOpts` in `http/request/client.go`, with the
breaker field carrying the validated breaker configuration and the
underlying transport omitted (it is a parameter of `RoundTrip` here). -/
structure clientOpts where
  responseValidator : HTTPResponse → Bool
  breaker : Option BreakerConfig
  requestTimeout : Int

/-- One nanosecond-denominated second, the unit of Go `time.Duration`. -/
def second : Int := 1000000000

/-- `DefaultRequestTimeout` of `http/request/client.go`: 3 seconds. -/
def DefaultRequestTimeout : Int := 3 * second

/-- The gobreaker cool-down (its `Timeout` setting) is left at the
library default of 60 seconds by the repository. -/
def defaultBreakerCooldown : Int := 60 * second

/-- The `defaultBreakerOpts` of `http/request/client.go`: a 5 second
window, 10 minimum observations, 50 percent failure threshold. -/
def defaultBreakerOpts : BreakerConfig :=
  ⟨5 * second, defaultBreakerCooldown, 10, 50⟩

/-- Translated from the `CircuitBreaker` configuration function in
`http/request/client.go`: reject a failure percentage outside (0, 100],
otherwise install a breaker with the given window and `readyToTrip`
parameters. -/
def CircuitBreaker (window minObservations failurePercentage : Int) :
    clientOpts → Except GoErr clientOpts := fun opts =>
  if failurePercentage ≤ 0 ∨ 100 < failurePercentage then
    .error (.other "failurePercentage must be in the range (0, 100]")
  else
    .ok { opts with
          breaker := some ⟨window, defaultBreakerCooldown, minObservations, failurePercentage⟩ }

/-- Translated from the `Timeout` configuration function in
`http/request/client.go`. -/
def Timeout (timeout : Int) : clientOpts → Except GoErr clientOpts := fun opts =>
  .ok { opts with requestTimeout := timeout }

/-- The configured HTTP client that `NewClient` returns: a breaker
protected transport plus an overall request timeout. -/
structure HTTPClient where
  breaker : Option BreakerConfig
  responseValidator : HTTPResponse → Bool
  timeout : Int

/-- The `for ... range configFuncs` loops of `NewClient` and
`NewVaultStore`: apply each configuration function in order, returning
the first error. -/
def applyConfigFuncs {ε α : Type} : List (α → Except ε α) → α → Except ε α
  | [], opts => .ok opts
  | f :: fs, opts =>
    match f opts with
    | .error e => .error e
    | .ok opts1 => applyConfigFuncs fs opts1

/-- Translated from `NewClient` in `http/request/client.go`: start from
the defaults, apply the default circuit breaker, then apply each
supplied configuration function in order, stopping at the first
error. -/
def NewClient (configFuncs : List (clientOpts → Except GoErr clientOpts)) :
    Except GoErr HTTPClient :=
  let opts : clientOpts :=
    { responseValidator := DefaultResponseValidator
      breaker := none
      requestTimeout := DefaultRequestTimeout }
  match CircuitBreaker defaultBreakerOpts.window defaultBreakerOpts.minObservations
      defaultBreakerOpts.failurePercentage opts with
  | .error e => .error e
  | .ok opts1 =>
    match applyConfigFuncs configFuncs opts1 with
    | .error e => .error e
    | .ok opts2 => .ok ⟨opts2.breaker, opts2.responseValidator, opts2.requestTimeout⟩

end Request

/-- Whether a Go `(value, err)` style result carries an error. -/
def isErr {ε α : Type} : Except ε α → Bool
  | .error _ => true
  | .ok _ => false

namespace Secrets

open Request (GoErr)

/-- `zeroDuration` of `secrets/secretstorecache.go`. -/
def zeroDuration : Int := 0

/-- Translated from `cacheEntry` in `secrets/secretstorecache.go`:
the cached byte payload of one key and its absolute expiry time. -/
structure cacheEntry where
  expires : Int
  byts : List Nat
deriving DecidableEq, Repr

/-- Translated from `Store` in the secrets package: the S3 backed
secret cache.  The Go map is modelled extensionally, the
`s3ObjectGetter` interface as the function `(region, bucket, key) ↦
bytes-or-error` it implements, and the injected `utcNowGetter` by the
current-time value passed to each operation. -/
structure Store where
  cacheEntries : String → Option cacheEntry
  ttl : Int
  region : String
  bucket : String
  s3ObjectGetter : String → String → String → Except GoErr (List Nat)

/-- Translated from `NewStore` in the secrets package: a positive ttl,
a bucket and a region are required; the cache starts empty. -/
def NewStore (ttl : Int) (bucket region : String)
    (s3ObjectGetter : String → String → String → Except GoErr (List Nat)) :
    Except GoErr Store :=
  if ttl ≤ zeroDuration then
    .error (.other "must specify a ttl greater than 0")
  else if bucket = "" then
    .error (.other "must specify bucket")
  else if region = "" then
    .error (.other "must specify region")
  else
    .ok { cacheEntries := fun _ => none, ttl := ttl, region := region,
          bucket := bucket, s3ObjectGetter := s3ObjectGetter }

/-- Translated from `Store.refresh`: always fetch the key through the
object getter; on success overwrite the cache entry for the key with
expiry `now + ttl` and return the bytes; on error return the error (the
Go method returns without touching the map, so the store comes back
unchanged). -/
def Store.refresh (s : Store) (utcNow : Int) (key : String) :
    Except GoErr (List Nat) × Store :=
  match s.s3ObjectGetter s.region s.bucket key with
  | .error err => (.error err, s)
  | .ok byts =>
    let expires := utcNow + s.ttl
    (.ok byts,
     { s with cacheEntries := fun k => if k = key then some ⟨expires, byts⟩ else s.cacheEntries k })

/-- Translated from `Store.Get`: serve from the cache when the key is
present and not yet expired (`entry.expires.After(utcNow)`, that is
`utcNow < expires`), otherwise refresh.  The third component records
whether a refresh (remote fetch) was performed. -/
def Store.Get (s : Store) (utcNow : Int) (key : String) :
    Except GoErr (List Nat) × Store × Bool :=
  match s.cacheEntries key with
  | some entry =>
    if utcNow < entry.expires then
      (.ok entry.byts, s, false)
    else
      let r := s.refresh utcNow key
      (r.1, r.2, true)
  | none =>
    let r := s.refresh utcNow key
    (r.1, r.2, true)

/-- The well-known JWT path, `kubernetesJWTLocation` of the secrets
package. -/
def kubernetesJWTLocation : String := "/var/run/secrets/kubernetes.io/serviceaccount/token"

/-- Translated from `vaultStoreOpts` in the secrets package (the
`httpClient` field is modelled by the exchange function passed to
`getVaultService`). -/
structure vaultStoreOpts where
  ttl : Int
  vaultAddress : String
  vaultTimeout : Int
  vaultMaxRetries : Int
  appRole : String
  kubernetesAuthClusterID : String
deriving DecidableEq, Repr

/-- Go type of the Vault store configuration functions. -/
def ConfigurationFunc : Type := vaultStoreOpts → Except GoErr vaultStoreOpts

/-- Translated from `CacheTTL`: reject a non-positive ttl. -/
def CacheTTL (ttl : Int) : ConfigurationFunc := fun opts =>
  if ttl ≤ zeroDuration then .error (.other "ttl must be greater than 0")
  else .ok { opts with ttl := ttl }

/-- Translated from `VaultAddress`. -/
def VaultAddress (vaultAddress : String) : ConfigurationFunc := fun opts =>
  .ok { opts with vaultAddress := vaultAddress }

/-- Translated from `VaultTimeout`. -/
def VaultTimeout (vaultTimeout : Int) : ConfigurationFunc := fun opts =>
  .ok { opts with vaultTimeout := vaultTimeout }

/-- Translated from `VaultMaxRetries`. -/
def VaultMaxRetries (vaultMaxRetries : Int) : ConfigurationFunc := fun opts =>
  .ok { opts with vaultMaxRetries := vaultMaxRetries }

/-- Translated from `AppRole`: reject an empty application role. -/
def AppRole (appRole : String) : ConfigurationFunc := fun opts =>
  if appRole = "" then .error (.other "must specify appRole")
  else .ok { opts with appRole := appRole }

/-- Translated from `KubernetesAuthClusterID`: reject an empty cluster
id. -/
def KubernetesAuthClusterID (kubernetesAuthClusterID : String) : ConfigurationFunc :=
  fun opts =>
    if kubernetesAuthClusterID = "" then .error (.other "must specify kubernetesAuthClusterID")
    else .ok { opts with kubernetesAuthClusterID := kubernetesAuthClusterID }

/-- Translated from `VaultStore` in the secrets package: the Vault
backed secret cache.  The `vaultObjectGetter` interface is modelled as
the function `(opts, jwtLocation, key) ↦ bytes-or-error` it
implements. -/
structure VaultStore where
  cacheEntries : String → Option cacheEntry
  opts : vaultStoreOpts
  jwtLocation : String
  vaultObjectGetter : vaultStoreOpts → String → String → Except GoErr (List Nat)

/-- Translated from `NewVaultStore`: start from the defaults (10 second
ttl, no address, 3 second timeout, 5 retries, empty app role, cluster
id "kubernetes"), then apply each supplied configuration function in
order, stopping at the first error. -/
def NewVaultStore (configFuncs : List ConfigurationFunc)
    (vaultObjectGetter : vaultStoreOpts → String → String → Except GoErr (List Nat)) :
    Except GoErr VaultStore :=
  let opts : vaultStoreOpts :=
    { ttl := 10 * Request.second
      vaultAddress := ""
      vaultTimeout := 3 * Request.second
      vaultMaxRetries := 5
      appRole := ""
      kubernetesAuthClusterID := "kubernetes" }
  match Request.applyConfigFuncs configFuncs opts with
  | .error e => .error e
  | .ok opts1 =>
    .ok { cacheEntries := fun _ => none, opts := opts1,
          jwtLocation := kubernetesJWTLocation,
          vaultObjectGetter := vaultObjectGetter }

/-- Translated from `VaultStore.Get`: identical cache discipline to
`Store.Get`, over the Vault object getter. -/
def VaultStore.refresh (v : VaultStore) (utcNow : Int) (key : String) :
    Except GoErr (List Nat) × VaultStore :=
  match v.vaultObjectGetter v.opts v.jwtLocation key with
  | .error err => (.error err, v)
  | .ok byts =>
    let expires := utcNow + v.opts.ttl
    (.ok byts,
     { v with cacheEntries := fun k => if k = key then some ⟨expires, byts⟩ else v.cacheEntries k })

/-- Translated from `VaultStore.Get`: serve from the cache when the key
is present and not yet expired, otherwise refresh.  The third component
records whether a refresh (remote fetch) was performed. -/
def VaultStore.Get (v : VaultStore) (utcNow : Int) (key : String) :
    Except GoErr (List Nat) × VaultStore × Bool :=
  match v.cacheEntries key with
  | some entry =>
    if utcNow < entry.expires then
      (.ok entry.byts, v, false)
    else
      let r := v.refresh utcNow key
      (r.1, r.2, true)
  | none =>
    let r := v.refresh utcNow key
    (r.1, r.2, true)

/-- The Vault API client as `getVaultService` leaves it configured:
address, client token, client timeout and max retries. -/
structure VaultClient where
  address : String
  token : String
  clientTimeout : Int
  maxRetries : Int
deriving DecidableEq, Repr

/-- Translated from `jwtPayload` in the secrets package: the JSON body
of the login POST, carrying the JWT and the application role. -/
structure jwtPayload where
  JWT : String
  AppRole : String
deriving DecidableEq, Repr

/-- The part of the Vault login HTTP response that `getTokenFromJWT`
reads (`logical.HTTPResponse`): the optional `Auth` block with its
`ClientToken`. -/
structure VaultAuth where
  clientToken : String
deriving DecidableEq, Repr

/-- Translated from `getTokenFromJWT` in the secrets package: marshal
`jwtPayload{JWT: jwt, AppRole: opts.appRole}` and POST it to the
Kubernetes auth login path `/v1/auth/<clusterID>/login` joined onto the
Vault address; a response without an `Auth` block is the
authentication-failed error, otherwise the `Auth` block's client token
is returned.  `httpPost` bundles the effectful steps (request
construction, `httpClient.Do`, body read, JSON unmarshal) as a function
of the address, the login path and the payload, any of whose failures
it reports as an error; marshalling the literal payload and parsing the
address are modelled as succeeding. -/
def getTokenFromJWT (opts : vaultStoreOpts)
    (httpPost : String → String → jwtPayload → Except GoErr (Option VaultAuth))
    (jwt : String) : Except GoErr String :=
  let jwtRequestToken : jwtPayload := ⟨jwt, opts.appRole⟩
  let kubernetesAuthPath := "/v1/auth/" ++ opts.kubernetesAuthClusterID ++ "/login"
  match httpPost opts.vaultAddress kubernetesAuthPath jwtRequestToken with
  | .error e => .error e
  | .ok none => .error (.other "Error trying to authenticate with provided app role and JWT")
  | .ok (some auth) => .ok auth.clientToken

/-- Translated from `getVaultService` in the secrets package, with its
effects made explicit: `stored` is the current content of the atomic
`vaultSvcValue`, `jwtFile` the outcome of reading the JWT file at the
configured location, `exchange` the outcome of the JWT exchange as a
function of the JWT read (instantiated with `getTokenFromJWT opts
httpPost`, which the source calls there), and
`envVaultToken`/`envVaultAddr` the values of the
`VAULT_TOKEN`/`VAULT_ADDR` environment variables ("" when unset).  The
result pairs the client (if any) with the returned error (if any),
matching the two Go return values.  Faithful to the source: a failed
JWT exchange returns its error at once; a missing JWT file only logs a
warning and leaves the file error in the local `err` variable, which is
what an empty final client token is returned with. -/
def getVaultService (stored : Option VaultClient) (opts : vaultStoreOpts)
    (jwtFile : Except GoErr String) (exchange : String → Except GoErr String)
    (envVaultToken envVaultAddr : String) : Option VaultClient × Option GoErr :=
  match stored with
  | some svc => (some svc, none)
  | none =>
    let attempt : Except GoErr (String × Option GoErr) :=
      match jwtFile with
      | .error fileErr => .ok ("", some fileErr)
      | .ok jwt =>
        match exchange jwt with
        | .error e => .error e
        | .ok token => .ok (token, none)
    match attempt with
    | .error e => (none, some e)
    | .ok (token, errVar) =>
      let clientToken := if 0 < envVaultToken.length then envVaultToken else token
      if clientToken.length = 0 then
        (none, errVar)
      else
        let vaultAddress := if opts.vaultAddress = "" then envVaultAddr else opts.vaultAddress
        if vaultAddress = "" then
          (none, some (.other "You must provide a Vault cluster address"))
        else if clientToken = "" then
          (none, some (.other "Client token returned empty"))
        else
          (some ⟨vaultAddress, clientToken, opts.vaultTimeout, opts.vaultMaxRetries⟩, none)

end Secrets

/-- C7: the default response validator classifies a response as a failure
iff its status code is at least 500; literally, 200, 404 and 499 count as
success while 500 and 503 count as failure. -/
theorem c7_default_validator_fails_iff_status_at_least_500 :
    (∀ resp : Request.HTTPResponse,
        Request.DefaultResponseValidator resp = false ↔ 500 ≤ resp.statusCode) ∧
    Request.DefaultResponseValidator ⟨200⟩ = true ∧
    Request.DefaultResponseValidator ⟨404⟩ = true ∧
    Request.DefaultResponseValidator ⟨499⟩ = true ∧
    Request.DefaultResponseValidator ⟨500⟩ = false ∧
    Request.DefaultResponseValidator ⟨503⟩ = false := by
  refine ⟨fun resp => ?_, by decide, by decide, by decide, by decide, by decide⟩
  simp [Request.DefaultResponseValidator]

/-- While Open with an unexpired cool-down, a round trip yields the
`ErrCircuitOpen` sentinel and an untouched breaker, without invoking
the nested transport. -/
lemma RoundTrip_while_open (cfg : Request.BreakerConfig)
    (validator : Request.HTTPResponse → Bool)
    (nextResult : Option Request.HTTPResponse × Option Request.GoErr)
    (b : Request.Breaker) (now : Int)
    (hOpen : b.state = Request.BreakerState.Open) (hCooldown : now < b.expiry) :
    Request.RoundTrip cfg validator nextResult b now =
      ⟨none, some Request.GoErr.errCircuitOpen, b, false⟩ := by
  rcases b with ⟨st, counts, expiry⟩
  simp only [Request.Breaker.state] at hOpen
  subst hOpen
  simp only [Request.Breaker.expiry] at hCooldown
  simp [Request.RoundTrip, Request.Breaker.execute, Request.Breaker.currentState,
    not_le.mpr hCooldown, Request.GoErr.message]

/-- C2: while the breaker is Open and the cool-down has not elapsed, every
call through the transport returns the distinguished `ErrCircuitOpen` error,
no response, and the wrapped transport is never invoked. -/
theorem c2_open_circuit_fails_fast_without_calling_transport
    (cfg : Request.BreakerConfig) (validator : Request.HTTPResponse → Bool)
    (nextResult : Option Request.HTTPResponse × Option Request.GoErr)
    (b : Request.Breaker) (now : Int)
    (hOpen : b.state = Request.BreakerState.Open) (hCooldown : now < b.expiry) :
    Request.RoundTrip cfg validator nextResult b now =
      ⟨none, some Request.GoErr.errCircuitOpen, b, false⟩ :=
  RoundTrip_while_open cfg validator nextResult b now hOpen hCooldown

/-- C2 witness: a concrete Open breaker inside its cool-down fails fast. -/
theorem c2_open_circuit_fails_fast_without_calling_transport_witness :
    (⟨Request.BreakerState.Open, ⟨3, 2⟩, 100⟩ : Request.Breaker).state =
        Request.BreakerState.Open ∧
    (50 : Int) < (⟨Request.BreakerState.Open, ⟨3, 2⟩, 100⟩ : Request.Breaker).expiry ∧
    Request.RoundTrip ⟨5 * Request.second, 60 * Request.second, 10, 50⟩
        Request.DefaultResponseValidator (some ⟨200⟩, none)
        ⟨Request.BreakerState.Open, ⟨3, 2⟩, 100⟩ 50 =
      ⟨none, some Request.GoErr.errCircuitOpen,
        ⟨Request.BreakerState.Open, ⟨3, 2⟩, 100⟩, false⟩ :=
  ⟨rfl, by decide,
    c2_open_circuit_fails_fast_without_calling_transport _ _ _ _ _ rfl (by decide)⟩

/-- C10: `IsCircuitOpenError` holds exactly of a `*url.Error` whose `Err`
field is the `ErrCircuitOpen` sentinel; it is false of nil and false of the
bare sentinel itself, which is exactly what `transport.RoundTrip` returns
while the circuit is open. -/
theorem c10_is_circuit_open_error_only_for_wrapped_sentinel :
    (∀ err : Request.GoErr,
        Request.IsCircuitOpenError (some err) = true ↔
          err = Request.GoErr.urlError Request.GoErr.errCircuitOpen) ∧
    Request.IsCircuitOpenError none = false ∧
    Request.IsCircuitOpenError (some Request.GoErr.errCircuitOpen) = false ∧
    (∀ (cfg : Request.BreakerConfig) (validator : Request.HTTPResponse → Bool)
        (nextResult : Option Request.HTTPResponse × Option Request.GoErr)
        (b : Request.Breaker) (now : Int),
        b.state = Request.BreakerState.Open → now < b.expiry →
        Request.IsCircuitOpenError
            (Request.RoundTrip cfg validator nextResult b now).err = false) := by
  refine ⟨fun err => ?_, rfl, rfl, fun cfg validator nextResult b now hOpen hCooldown => ?_⟩
  · cases err <;> simp [Request.IsCircuitOpenError]
  · rw [RoundTrip_while_open cfg validator nextResult b now hOpen hCooldown]
    rfl

/-- C5: when the nested transport delivers a response that the configured
validator rejects, the failure is recorded in the breaker statistics (the
bookkeeping transition runs with success = false), yet RoundTrip returns
that very response with a nil error: the validation failure is neither
converted into an error nor swallowed. -/
theorem c5_validation_failure_recorded_but_response_returned
    (cfg : Request.BreakerConfig) (validator : Request.HTTPResponse → Bool)
    (resp : Request.HTTPResponse) (b : Request.Breaker) (now : Int)
    (hNotOpen : (b.currentState now cfg).state ≠ Request.BreakerState.Open)
    (hInvalid : validator resp = false) :
    Request.RoundTrip cfg validator (some resp, none) b now =
      ⟨some resp, none, (b.currentState now cfg).afterRequest cfg false now, true⟩ := by
  cases hst : (b.currentState now cfg).state with
  | Open => exact absurd hst hNotOpen
  | Closed =>
    simp [Request.RoundTrip, Request.Breaker.execute, hst, hInvalid]
  | HalfOpen =>
    simp [Request.RoundTrip, Request.Breaker.execute, hst, hInvalid]

/-- C5 witness: a concrete Closed breaker, the default validator, and a 503
response: the response comes back with no error and the failure is counted. -/
theorem c5_validation_failure_recorded_but_response_returned_witness :
    ((⟨Request.BreakerState.Closed, ⟨4, 1⟩, 1000⟩ : Request.Breaker).currentState 0
        ⟨5 * Request.second, 60 * Request.second, 10, 50⟩).state ≠
      Request.BreakerState.Open ∧
    Request.DefaultResponseValidator ⟨503⟩ = false ∧
    Request.RoundTrip ⟨5 * Request.second, 60 * Request.second, 10, 50⟩
        Request.DefaultResponseValidator (some ⟨503⟩, none)
        ⟨Request.BreakerState.Closed, ⟨4, 1⟩, 1000⟩ 0 =
      ⟨some ⟨503⟩, none,
        ((⟨Request.BreakerState.Closed, ⟨4, 1⟩, 1000⟩ : Request.Breaker).currentState 0
            ⟨5 * Request.second, 60 * Request.second, 10, 50⟩).afterRequest
          ⟨5 * Request.second, 60 * Request.second, 10, 50⟩ false 0, true⟩ :=
  ⟨by decide, by decide,
    c5_validation_failure_recorded_but_response_returned _ _ _ _ _ (by decide) (by decide)⟩

/-- Unfolding of a true `readyToTrip`: the window already holds at least
`uint32(minObservations)` requests and the failure ratio has reached the
threshold. -/
lemma readyToTrip_true_elim {m p : Int} {c : Request.Counts}
    (h : Request.readyToTrip m p c = true) :
    Request.goUint32 m ≤ c.requests ∧
      (p : ℚ) / 100 ≤ (c.totalFailures : ℚ) / (c.requests : ℚ) := by
  simp only [Request.readyToTrip] at h
  split at h
  · exact absurd h (by simp)
  · exact of_decide_eq_true h

/-- A Closed breaker that tripped to Open did so because the incremented
window counts made `readyToTrip` true. -/
lemma afterRequest_closed_to_open {cfg : Request.BreakerConfig} {b : Request.Breaker}
    {success : Bool} {now : Int}
    (hb : b.state = Request.BreakerState.Closed)
    (hOpen : (b.afterRequest cfg success now).state = Request.BreakerState.Open) :
    Request.readyToTrip cfg.minObservations cfg.failurePercentage
      ⟨b.counts.requests + 1, b.counts.totalFailures + (if success then 0 else 1)⟩ = true := by
  rcases b with ⟨st, counts, expiry⟩
  simp only [Request.Breaker.state] at hb
  subst hb
  cases success with
  | true => simp [Request.Breaker.afterRequest] at hOpen
  | false =>
    by_cases hready : Request.readyToTrip cfg.minObservations cfg.failurePercentage
        ⟨counts.requests + 1, counts.totalFailures + 1⟩ = true
    · simpa using hready
    · rw [Bool.not_eq_true] at hready
      simp [Request.Breaker.afterRequest, hready] at hOpen

/-- A Closed breaker that did not trip stays Closed with one more request
counted in its window. -/
lemma afterRequest_closed_not_open {cfg : Request.BreakerConfig} {b : Request.Breaker}
    {success : Bool} {now : Int}
    (hb : b.state = Request.BreakerState.Closed)
    (hnot : (b.afterRequest cfg success now).state ≠ Request.BreakerState.Open) :
    (b.afterRequest cfg success now).state = Request.BreakerState.Closed ∧
      (b.afterRequest cfg success now).counts.requests = b.counts.requests + 1 := by
  rcases b with ⟨st, counts, expiry⟩
  simp only [Request.Breaker.state] at hb
  subst hb
  cases success with
  | true => constructor <;> simp [Request.Breaker.afterRequest]
  | false =>
    by_cases hready : Request.readyToTrip cfg.minObservations cfg.failurePercentage
        ⟨counts.requests + 1, counts.totalFailures + 1⟩ = true
    · exact absurd (by simp [Request.Breaker.afterRequest, hready]) hnot
    · rw [Bool.not_eq_true] at hready
      constructor <;> simp [Request.Breaker.afterRequest, hready]

/-- Reaching Open from a Closed breaker over a window of outcomes needs at
least `uint32(minObservations)` requests in that window. -/
lemma runWindow_open_requires (cfg : Request.BreakerConfig) (now : Int) :
    ∀ (outcomes : List Bool) (b : Request.Breaker),
      b.state = Request.BreakerState.Closed →
      (Request.Breaker.runWindow cfg outcomes now b).state = Request.BreakerState.Open →
      Request.goUint32 cfg.minObservations ≤ b.counts.requests + outcomes.length := by
  intro outcomes
  induction outcomes with
  | nil =>
    intro b hb hOpen
    rw [show Request.Breaker.runWindow cfg [] now b = b from rfl, hb] at hOpen
    exact absurd hOpen (by simp)
  | cons success rest ih =>
    intro b hb hOpen
    rw [show Request.Breaker.runWindow cfg (success :: rest) now b =
          Request.Breaker.runWindow cfg rest now (b.afterRequest cfg success now) from rfl]
      at hOpen
    by_cases hcase : (b.afterRequest cfg success now).state = Request.BreakerState.Open
    · have hmin := (readyToTrip_true_elim (afterRequest_closed_to_open hb hcase)).1
      simp only [Request.Counts.requests] at hmin
      simp only [List.length_cons]
      omega
    · obtain ⟨hclosed, hreq⟩ := afterRequest_closed_not_open hb hcase
      have hrec := ih (b.afterRequest cfg success now) hclosed hOpen
      rw [hreq] at hrec
      simp only [List.length_cons]
      omega

/-- C1: the breaker leaves Closed for Open only when the window holds at
least `uint32(minObservations)` requests and the failure ratio has reached
`failurePercentage/100`; consequently a window of fewer than
`minObservations` requests can never open a fresh Closed breaker, whatever
its failure ratio. -/
theorem c1_closed_trips_only_with_min_observations_and_threshold :
    (∀ (cfg : Request.BreakerConfig) (b : Request.Breaker) (success : Bool) (now : Int),
        b.state = Request.BreakerState.Closed →
        (b.afterRequest cfg success now).state = Request.BreakerState.Open →
        Request.goUint32 cfg.minObservations ≤ b.counts.requests + 1 ∧
          (cfg.failurePercentage : ℚ) / 100 ≤
            ((b.counts.totalFailures + (if success then 0 else 1) : Nat) : ℚ) /
              ((b.counts.requests + 1 : Nat) : ℚ)) ∧
    (∀ (cfg : Request.BreakerConfig) (outcomes : List Bool) (now expiry : Int),
        outcomes.length < Request.goUint32 cfg.minObservations →
        (Request.Breaker.runWindow cfg outcomes now
            ⟨Request.BreakerState.Closed, ⟨0, 0⟩, expiry⟩).state ≠
          Request.BreakerState.Open) := by
  constructor
  · intro cfg b success now hb hOpen
    exact readyToTrip_true_elim (afterRequest_closed_to_open hb hOpen)
  · intro cfg outcomes now expiry hlen hOpen
    have hreq := runWindow_open_requires cfg now outcomes
      ⟨Request.BreakerState.Closed, ⟨0, 0⟩, expiry⟩ rfl hOpen
    simp only [Request.Breaker.counts, Request.Counts.requests] at hreq
    omega

/-- C3: for both the S3 backed store and the Vault backed store, Get serves
from the cache without a remote fetch exactly when an entry for the key
exists and the injected current time is strictly before its expiry, and in
that case the cached bytes come back with the store untouched; in every
other case Get performs a refresh. -/
theorem c3_get_serves_cache_iff_entry_unexpired :
    (∀ (s : Secrets.Store) (utcNow : Int) (key : String),
        ((s.Get utcNow key).2.2 = false ↔
          ∃ entry, s.cacheEntries key = some entry ∧ utcNow < entry.expires) ∧
        (∀ entry, s.cacheEntries key = some entry → utcNow < entry.expires →
          s.Get utcNow key = (.ok entry.byts, s, false))) ∧
    (∀ (v : Secrets.VaultStore) (utcNow : Int) (key : String),
        ((v.Get utcNow key).2.2 = false ↔
          ∃ entry, v.cacheEntries key = some entry ∧ utcNow < entry.expires) ∧
        (∀ entry, v.cacheEntries key = some entry → utcNow < entry.expires →
          v.Get utcNow key = (.ok entry.byts, v, false))) := by
  constructor
  · intro s utcNow key
    constructor
    · cases h : s.cacheEntries key with
      | none => simp [Secrets.Store.Get, h]
      | some entry =>
        by_cases hexp : utcNow < entry.expires
        · simp [Secrets.Store.Get, h, hexp]
        · simp [Secrets.Store.Get, h, hexp]
    · intro entry hentry hexp
      simp [Secrets.Store.Get, hentry, hexp]
  · intro v utcNow key
    constructor
    · cases h : v.cacheEntries key with
      | none => simp [Secrets.VaultStore.Get, h]
      | some entry =>
        by_cases hexp : utcNow < entry.expires
        · simp [Secrets.VaultStore.Get, h, hexp]
        · simp [Secrets.VaultStore.Get, h, hexp]
    · intro entry hentry hexp
      simp [Secrets.VaultStore.Get, hentry, hexp]

/-- C4: for both stores, refresh consults the remote getter every time; on a
successful fetch it overwrites the entry for the key with expiry
`now + ttl` (leaving every other key alone) and returns the fetched bytes;
on a fetch error it returns that error with the store, its cache map
included, entirely unchanged. -/
theorem c4_refresh_overwrites_on_success_and_preserves_cache_on_error :
    (∀ (s : Secrets.Store) (utcNow : Int) (key : String) (e : Request.GoErr),
        s.s3ObjectGetter s.region s.bucket key = .error e →
        s.refresh utcNow key = (.error e, s)) ∧
    (∀ (s : Secrets.Store) (utcNow : Int) (key : String) (byts : List Nat),
        s.s3ObjectGetter s.region s.bucket key = .ok byts →
        (s.refresh utcNow key).1 = .ok byts ∧
        (s.refresh utcNow key).2.cacheEntries key = some ⟨utcNow + s.ttl, byts⟩ ∧
        (∀ k, k ≠ key → (s.refresh utcNow key).2.cacheEntries k = s.cacheEntries k)) ∧
    (∀ (v : Secrets.VaultStore) (utcNow : Int) (key : String) (e : Request.GoErr),
        v.vaultObjectGetter v.opts v.jwtLocation key = .error e →
        v.refresh utcNow key = (.error e, v)) ∧
    (∀ (v : Secrets.VaultStore) (utcNow : Int) (key : String) (byts : List Nat),
        v.vaultObjectGetter v.opts v.jwtLocation key = .ok byts →
        (v.refresh utcNow key).1 = .ok byts ∧
        (v.refresh utcNow key).2.cacheEntries key = some ⟨utcNow + v.opts.ttl, byts⟩ ∧
        (∀ k, k ≠ key → (v.refresh utcNow key).2.cacheEntries k = v.cacheEntries k)) := by
  refine ⟨fun s utcNow key e h => ?_, fun s utcNow key byts h => ?_,
    fun v utcNow key e h => ?_, fun v utcNow key byts h => ?_⟩
  · simp [Secrets.Store.refresh, h]
  · exact ⟨by simp [Secrets.Store.refresh, h], by simp [Secrets.Store.refresh, h],
      fun k hk => by simp [Secrets.Store.refresh, h, hk]⟩
  · simp [Secrets.VaultStore.refresh, h]
  · exact ⟨by simp [Secrets.VaultStore.refresh, h], by simp [Secrets.VaultStore.refresh, h],
      fun k hk => by simp [Secrets.VaultStore.refresh, h, hk]⟩

/-- C6: invalid configuration is rejected at construction time: NewClient
fails when handed a CircuitBreaker configuration whose failure percentage
lies outside (0, 100]; NewStore fails on a non-positive ttl, an empty
bucket or an empty region; NewVaultStore fails when handed an empty app
role or an empty Kubernetes auth cluster id, and in every case no store or
client is produced. -/
theorem c6_invalid_configuration_fails_at_construction :
    (∀ (w m fp : Int), fp ≤ 0 ∨ 100 < fp →
        isErr (Request.NewClient [Request.CircuitBreaker w m fp]) = true) ∧
    (∀ (ttl : Int) (bucket region : String)
        (g : String → String → String → Except Request.GoErr (List Nat)),
        ttl ≤ 0 ∨ bucket = "" ∨ region = "" →
        isErr (Secrets.NewStore ttl bucket region g) = true) ∧
    (∀ g : Secrets.vaultStoreOpts → String → String → Except Request.GoErr (List Nat),
        isErr (Secrets.NewVaultStore [Secrets.AppRole ""] g) = true) ∧
    (∀ g : Secrets.vaultStoreOpts → String → String → Except Request.GoErr (List Nat),
        isErr (Secrets.NewVaultStore [Secrets.KubernetesAuthClusterID ""] g) = true) := by
  refine ⟨fun w m fp h => ?_, fun ttl bucket region g h => ?_, fun g => rfl, fun g => rfl⟩
  · simp only [Request.NewClient, Request.CircuitBreaker, Request.defaultBreakerOpts,
      Request.applyConfigFuncs, isErr]
    norm_num
    rw [if_pos h]
  · rcases h with h | h | h
    · simp [Secrets.NewStore, Secrets.zeroDuration, h, isErr]
    · subst h
      by_cases httl : ttl ≤ Secrets.zeroDuration <;>
        simp [Secrets.NewStore, httl, isErr]
    · subst h
      by_cases httl : ttl ≤ Secrets.zeroDuration <;>
        by_cases hbucket : bucket = "" <;>
          simp [Secrets.NewStore, httl, hbucket, isErr]

/-- C8 counterexample: with the singleton unset, a readable JWT file, a
failing JWT exchange and a non-empty VAULT_TOKEN override available,
`getVaultService` returns the exchange error and no client: it does not
fall back to the override token when the exchange fails, contrary to the
claimed fallback behaviour. -/
theorem c8_counterexample_exchange_failure_skips_override :
    Secrets.getVaultService none
        ⟨10, "http://vault.example:8200", 3, 5, "role", "kubernetes"⟩
        (.ok "jwt-from-file") (fun _ => .error (.other "exchange failed"))
        "override-token" "" =
      (none, some (.other "exchange failed")) ∧
    ("override-token" : String).length ≠ 0 := by
  exact ⟨rfl, by decide⟩

/-- C8 (amended): on first construction, the Vault client token is acquired
by POSTing the JWT read from the well-known file, together with the app
role, to the `/v1/auth/<clusterID>/login` endpoint (`getTokenFromJWT`), and
a successfully exchanged non-empty token becomes the constructed client's
token when no override is set; a failing exchange aborts construction with
that error without consulting the VAULT_TOKEN override; only a missing JWT
file falls through, in which case a non-empty override yields the client
and an empty one returns the file-read error; a set override also replaces
a successfully exchanged token; and an empty exchanged token with no
override yields neither a client nor an error. -/
theorem c8_vault_token_acquisition_amended :
    (∀ (opts : Secrets.vaultStoreOpts) (jwt : String)
        (exchange : String → Except Request.GoErr String) (e : Request.GoErr)
        (envTok envAddr : String),
        exchange jwt = .error e →
        Secrets.getVaultService none opts (.ok jwt) exchange envTok envAddr =
          (none, some e)) ∧
    (∀ (opts : Secrets.vaultStoreOpts) (fileErr : Request.GoErr)
        (exchange : String → Except Request.GoErr String) (envTok envAddr : String),
        0 < envTok.length → opts.vaultAddress ≠ "" →
        Secrets.getVaultService none opts (.error fileErr) exchange envTok envAddr =
          (some ⟨opts.vaultAddress, envTok, opts.vaultTimeout, opts.vaultMaxRetries⟩, none)) ∧
    (∀ (opts : Secrets.vaultStoreOpts) (fileErr : Request.GoErr)
        (exchange : String → Except Request.GoErr String) (envAddr : String),
        Secrets.getVaultService none opts (.error fileErr) exchange "" envAddr =
          (none, some fileErr)) ∧
    (∀ (opts : Secrets.vaultStoreOpts) (jwt : String)
        (exchange : String → Except Request.GoErr String) (tok envTok envAddr : String),
        exchange jwt = .ok tok → 0 < envTok.length → opts.vaultAddress ≠ "" →
        Secrets.getVaultService none opts (.ok jwt) exchange envTok envAddr =
          (some ⟨opts.vaultAddress, envTok, opts.vaultTimeout, opts.vaultMaxRetries⟩, none)) ∧
    (∀ (opts : Secrets.vaultStoreOpts) (jwt : String)
        (exchange : String → Except Request.GoErr String) (envAddr : String),
        exchange jwt = .ok "" →
        Secrets.getVaultService none opts (.ok jwt) exchange "" envAddr =
          (none, none)) ∧
    (∀ (opts : Secrets.vaultStoreOpts) (jwt : String)
        (exchange : String → Except Request.GoErr String) (tok envAddr : String),
        exchange jwt = .ok tok → 0 < tok.length → opts.vaultAddress ≠ "" →
        Secrets.getVaultService none opts (.ok jwt) exchange "" envAddr =
          (some ⟨opts.vaultAddress, tok, opts.vaultTimeout, opts.vaultMaxRetries⟩, none)) ∧
    (∀ (opts : Secrets.vaultStoreOpts)
        (httpPost : String → String → Secrets.jwtPayload →
          Except Request.GoErr (Option Secrets.VaultAuth))
        (jwt : String) (auth : Secrets.VaultAuth),
        httpPost opts.vaultAddress
            ("/v1/auth/" ++ opts.kubernetesAuthClusterID ++ "/login") ⟨jwt, opts.appRole⟩ =
          .ok (some auth) →
        Secrets.getTokenFromJWT opts httpPost jwt = .ok auth.clientToken) ∧
    (∀ (opts : Secrets.vaultStoreOpts)
        (httpPost : String → String → Secrets.jwtPayload →
          Except Request.GoErr (Option Secrets.VaultAuth))
        (jwt : String),
        httpPost opts.vaultAddress
            ("/v1/auth/" ++ opts.kubernetesAuthClusterID ++ "/login") ⟨jwt, opts.appRole⟩ =
          .ok none →
        Secrets.getTokenFromJWT opts httpPost jwt =
          .error (.other "Error trying to authenticate with provided app role and JWT")) ∧
    (∀ (opts : Secrets.vaultStoreOpts)
        (httpPost : String → String → Secrets.jwtPayload →
          Except Request.GoErr (Option Secrets.VaultAuth))
        (jwt : String) (auth : Secrets.VaultAuth) (envAddr : String),
        httpPost opts.vaultAddress
            ("/v1/auth/" ++ opts.kubernetesAuthClusterID ++ "/login") ⟨jwt, opts.appRole⟩ =
          .ok (some auth) →
        0 < auth.clientToken.length → opts.vaultAddress ≠ "" →
        Secrets.getVaultService none opts (.ok jwt)
            (Secrets.getTokenFromJWT opts httpPost) "" envAddr =
          (some ⟨opts.vaultAddress, auth.clientToken, opts.vaultTimeout,
            opts.vaultMaxRetries⟩, none)) := by
  have hne : ∀ s : String, 0 < s.length → ¬s = "" := by
    intro s hs hcontra
    rw [hcontra] at hs
    simp at hs
  refine ⟨fun opts jwt exchange e envTok envAddr hx => ?_,
    fun opts fileErr exchange envTok envAddr htok haddr => ?_,
    fun opts fileErr exchange envAddr => ?_,
    fun opts jwt exchange tok envTok envAddr hx htok haddr => ?_,
    fun opts jwt exchange envAddr hx => ?_,
    fun opts jwt exchange tok envAddr hx htok haddr => ?_,
    fun opts httpPost jwt auth hpost => ?_,
    fun opts httpPost jwt hpost => ?_,
    fun opts httpPost jwt auth envAddr hpost htok haddr => ?_⟩
  · simp [Secrets.getVaultService, hx]
  · simp [Secrets.getVaultService, htok, hne envTok htok, haddr,
      Nat.pos_iff_ne_zero.mp htok]
  · simp [Secrets.getVaultService]
  · simp [Secrets.getVaultService, hx, htok, hne envTok htok, haddr,
      Nat.pos_iff_ne_zero.mp htok]
  · simp [Secrets.getVaultService, hx]
  · simp [Secrets.getVaultService, hx, hne tok htok, haddr,
      Nat.pos_iff_ne_zero.mp htok]
  · simp [Secrets.getTokenFromJWT, hpost]
  · simp [Secrets.getTokenFromJWT, hpost]
  · have hx : Secrets.getTokenFromJWT opts httpPost jwt = .ok auth.clientToken := by
      simp [Secrets.getTokenFromJWT, hpost]
    simp [Secrets.getVaultService, hx, hne auth.clientToken htok, haddr,
      Nat.pos_iff_ne_zero.mp htok]
